import Mathlib

/-!
Verification of the issue-readiness analyzer (`scripts/github_projects_analyzer.py`)
and the codebase enhancer (`scripts/enhance_codebase.py`).

Strings are embedded as `List Char` (Python `str`); `label in labels` on a
Python list is exact membership (`∈`), while `"pat" in label` on a Python
string is substring containment (`<:+:`).  Fallible or external inputs
(HTTP response, credential) are explicit parameters.
-/

/-- Python `str` literal, as a character list. -/
def str (s : String) : List Char := s.data

namespace GHA

/-- A raw issue record, the fields the analyzer reads.
`body` and `assignee` are `None`-able in the JSON (`assignee` stands for the
already-extracted `login` field of the assignee object). -/
structure Issue where
  number : Nat
  title : List Char
  labels : List (List Char)
  body : Option (List Char)
  assignee : Option (List Char)
  html_url : List Char
deriving DecidableEq

/-- An entry of `ai_ready_tasks` as built by `analyze_issues`. -/
structure ReadyTask where
  issue_number : Nat
  title : List Char
  labels : List (List Char)
  priority : List Char
  complexity : List Char
  readiness_score : Nat
  assignee : Option (List Char)
  url : List Char
deriving DecidableEq

/-- The analysis dictionary: the two distribution dicts are flattened into
their fixed keys (`priority_distribution` has keys high/medium/low,
`complexity_distribution` has keys low/medium/high/unknown). -/
structure Analysis where
  timestamp : List Char
  repository : List Char
  total_issues : Nat
  ai_ready_tasks : List ReadyTask
  priority_high : Nat
  priority_medium : Nat
  priority_low : Nat
  complexity_low : Nat
  complexity_medium : Nat
  complexity_high : Nat
  complexity_unknown : Nat

/-- `label['name'].lower()`: ASCII lowercasing of a label, as in
`analyze_issues` line 71. -/
def lowerStr (s : List Char) : List Char := s.map Char.toLower

/-- `blocking_labels` of `is_ai_ready`. -/
def blocking_labels : List (List Char) :=
  [str "needs discussion", str "blocked", str "waiting for input"]

/-- `ai_ready_labels` of `is_ai_ready`. -/
def ai_ready_labels : List (List Char) :=
  [str "good first issue", str "help wanted", str "bug", str "ai-agent-ready"]

/-- `is_ai_ready(issue, labels)` (lines 99-116): blocking labels override,
then ready labels, then `len(body) > 100` with `body = issue.get('body','') or ''`. -/
def is_ai_ready (issue : Issue) (labels : List (List Char)) : Bool :=
  if blocking_labels.any (fun label => decide (label ∈ labels)) then false
  else if ai_ready_labels.any (fun label => decide (label ∈ labels)) then true
  else
    let body := issue.body.getD []
    if body.length > 100 then true
    else false

/-- `extract_priority(labels)` (lines 118-127): Python `'pat' in label` is a
substring test on the label string. -/
def extract_priority (labels : List (List Char)) : List Char :=
  if labels.any (fun label =>
      decide (str "high priority" <:+: label) || decide (str "critical" <:+: label)) then
    str "high"
  else if labels.any (fun label => decide (str "medium priority" <:+: label)) then
    str "medium"
  else if labels.any (fun label => decide (str "low priority" <:+: label)) then
    str "low"
  else
    str "medium"

/-- `extract_complexity(labels)` (lines 129-138): again substring tests
(`'complexity-low' in label`), not exact label equality. -/
def extract_complexity (labels : List (List Char)) : List Char :=
  if labels.any (fun label => decide (str "complexity-low" <:+: label)) then
    str "low"
  else if labels.any (fun label => decide (str "complexity-medium" <:+: label)) then
    str "medium"
  else if labels.any (fun label => decide (str "complexity-high" <:+: label)) then
    str "high"
  else
    str "unknown"

/-- `calculate_readiness_score(issue, labels)` (lines 140-169): these `in labels`
tests are exact membership in the label list. -/
def calculate_readiness_score (issue : Issue) (labels : List (List Char)) : Nat :=
  let score := 50
  let score := score + (if str "good first issue" ∈ labels then 20 else 0)
  let score := score + (if str "ai-agent-ready" ∈ labels then 25 else 0)
  let score := score + (if str "bug" ∈ labels then 15 else 0)
  let score := score + (if str "enhancement" ∈ labels then 10 else 0)
  let score := score +
    (if str "complexity-low" ∈ labels then 20
     else if str "complexity-medium" ∈ labels then 10
     else 0)
  let body := issue.body.getD []
  let score := score + (if body.length > 200 then 15 else 0)
  let score := score + (if issue.assignee = none then 10 else 0)
  min score 100

/-- The task dict appended for an AI-ready issue (lines 75-84). -/
def mkTask (issue : Issue) (labels : List (List Char)) : ReadyTask :=
  { issue_number := issue.number
    title := issue.title
    labels := labels
    priority := extract_priority labels
    complexity := extract_complexity labels
    readiness_score := calculate_readiness_score issue labels
    assignee := issue.assignee
    url := issue.html_url }

/-- `analysis['priority_distribution'][priority] += 1` (line 89): `priority`
is always one of the three keys of the dict. -/
def bumpPriority (a : Analysis) (p : List Char) : Analysis :=
  if p = str "high" then { a with priority_high := a.priority_high + 1 }
  else if p = str "medium" then { a with priority_medium := a.priority_medium + 1 }
  else if p = str "low" then { a with priority_low := a.priority_low + 1 }
  else a

/-- `analysis['complexity_distribution'][complexity] += 1` (line 92). -/
def bumpComplexity (a : Analysis) (c : List Char) : Analysis :=
  if c = str "low" then { a with complexity_low := a.complexity_low + 1 }
  else if c = str "medium" then { a with complexity_medium := a.complexity_medium + 1 }
  else if c = str "high" then { a with complexity_high := a.complexity_high + 1 }
  else if c = str "unknown" then { a with complexity_unknown := a.complexity_unknown + 1 }
  else a

/-- The body of the `for issue in issues` loop of `analyze_issues` (lines 70-92). -/
def analyzeStep (a : Analysis) (issue : Issue) : Analysis :=
  let labels := issue.labels.map lowerStr
  let a :=
    if is_ai_ready issue labels then
      { a with ai_ready_tasks := a.ai_ready_tasks ++ [mkTask issue labels] }
    else a
  let a := bumpPriority a (extract_priority labels)
  bumpComplexity a (extract_complexity labels)

/-- The initial `analysis` dict of `analyze_issues` (lines 61-68). -/
def initAnalysis (repo ts : List Char) (issues : List Issue) : Analysis :=
  { timestamp := ts
    repository := repo
    total_issues := issues.length
    ai_ready_tasks := []
    priority_high := 0, priority_medium := 0, priority_low := 0
    complexity_low := 0, complexity_medium := 0
    complexity_high := 0, complexity_unknown := 0 }

/-- `analyze_issues(issues)` (lines 59-97): loop over the issues, then
`ai_ready_tasks.sort(key=readiness_score, reverse=True)` — a stable
descending sort by score. `repo` is `self.repo`, `ts` the timestamp. -/
def analyze_issues (repo ts : List Char) (issues : List Issue) : Analysis :=
  let a := issues.foldl analyzeStep (initAnalysis repo ts issues)
  { a with ai_ready_tasks :=
      a.ai_ready_tasks.mergeSort (fun x y => decide (y.readiness_score ≤ x.readiness_score)) }

/-- `create_mock_analysis()` (lines 171-201): the fixed two-task dataset. -/
def create_mock_analysis (repo ts : List Char) : Analysis :=
  { timestamp := ts
    repository := repo
    total_issues := 2
    ai_ready_tasks :=
      [ { issue_number := 154
          title := str "Flipping Securify endpoints"
          labels := [str "bug", str "high priority", str "internal"]
          priority := str "high"
          complexity := str "medium"
          readiness_score := 85
          assignee := none
          url := str "https://github.com/" ++ repo ++ str "/issues/154" },
        { issue_number := 151
          title := str "Fake data from demo store for first time install over the dashboard"
          labels := [str "enhancement", str "high priority"]
          priority := str "high"
          complexity := str "low"
          readiness_score := 90
          assignee := none
          url := str "https://github.com/" ++ repo ++ str "/issues/151" } ]
    priority_high := 2, priority_medium := 0, priority_low := 0
    complexity_low := 1, complexity_medium := 1
    complexity_high := 0, complexity_unknown := 0 }

/-- The outcome of the one `requests.get` call: the request may raise, or
return a status code and (for status 200) a parsed issue list. -/
inductive HttpResult where
  | err : HttpResult
  | ok : Nat → List Issue → HttpResult
deriving DecidableEq

/-- `analyze_projects()` (lines 35-57): no token → mock; request raised →
mock; non-200 status → mock; otherwise analyze the fetched issues. -/
def analyze_projects (repo ts : List Char) (token : Option (List Char))
    (resp : HttpResult) : Analysis :=
  match token with
  | none => create_mock_analysis repo ts
  | some _ =>
    match resp with
    | .err => create_mock_analysis repo ts
    | .ok status issues =>
      if status = 200 then analyze_issues repo ts issues
      else create_mock_analysis repo ts

end GHA

namespace Enh

/-- The sentinel marker guarding reprocessing (`"AGENT_ENHANCED" in content`). -/
def sentinel : List Char := str "AGENT_ENHANCED"

/-- Python's regex `\s` class over ASCII: space, tab, newline, carriage
return, form feed, vertical tab. -/
def isWS (c : Char) : Bool :=
  c = ' ' || c = '\t' || c = '\n' || c = '\r' || c = '\x0c' || c = '\x0b'

/-- Does the text at the current position begin with the literal `<?php`. -/
def startsWithPhp (l : List Char) : Bool :=
  match l with
  | '<' :: '?' :: 'p' :: 'h' :: 'p' :: _ => true
  | _ => false

/-- After consuming the match `<?php` ++ `ws`, whether the next scan position
is at a line start in the original text (MULTILINE `^` holds right after a
newline; the char before the next position is the match's last char, which is
`p` when `ws` is empty). -/
def wsEndsNL (ws : List Char) : Bool := decide (ws.getLast? = some '\n')

/-- One piece of a parsed `re.sub` replacement template: a literal character
or a group reference (CPython `re._parser.parse_template` yields literals
and group indices). -/
inductive Piece where
  | lit : Char → Piece
  | group : Nat → Piece
deriving DecidableEq

/-- An octal digit (CPython `OCTDIGITS`). -/
def isOct (c : Char) : Bool := '0' ≤ c && c ≤ '7'

/-- An ASCII letter (CPython `ASCIILETTERS`). -/
def isALetter (c : Char) : Bool :=
  ('a' ≤ c && c ≤ 'z') || ('A' ≤ c && c ≤ 'Z')

/-- CPython's `ESCAPES` table for replacement templates, letters only
(`\a \b \f \n \r \t \v`); `\\` is handled separately. -/
def escChar (c : Char) : Option Char :=
  if c = 'a' then some (Char.ofNat 7)
  else if c = 'b' then some (Char.ofNat 8)
  else if c = 'f' then some (Char.ofNat 12)
  else if c = 'n' then some (Char.ofNat 10)
  else if c = 'r' then some (Char.ofNat 13)
  else if c = 't' then some (Char.ofNat 9)
  else if c = 'v' then some (Char.ofNat 11)
  else none

/-- Numeric value of a decimal (or octal) digit. -/
def digVal (c : Char) : Nat := c.toNat - 48

/-- Value of a digit string (used for `\g<NN>` names). -/
def digitsVal (l : List Char) : Nat :=
  l.foldl (fun acc c => acc * 10 + digVal c) 0

/-- `re._parser.parse_template` of CPython, specialised to the patterns this
program compiles (`^(<\?php\s*)` with one group and `^<\?php\s*` with none):
`none` is the caught `re.error`/`IndexError`.  Token rules, checked against
CPython 3.11: `\g<NN>` (digits, index ≤ `groups`) is a group reference, any
other `\g<...>` raises (the patterns define no named groups, so identifier
names raise `unknown group name`); `\0` plus up to two octal digits is an
octal literal; `\N`/`\NN` is a group reference (index ≤ `groups`, else
`invalid group reference`) unless all of three digits are octal, which is an
octal literal raising above 0o377; `\\` is a literal backslash; `\a \b \f
\n \r \t \v` are the escape table; any other backslashed ASCII letter raises
`bad escape`; a backslashed non-letter is kept verbatim (backslash
included); a trailing backslash raises.  Digits are ASCII, as is `\s`
elsewhere; CPython's `MAXGROUPS` bound is subsumed by `index ≤ groups` for
these patterns.  `fuel` only bounds the recursion: every token consumes at
least one character, so the wrapper's `fuel = length` never runs out. -/
def parseT (groups : Nat) (fuel : Nat) (l : List Char) : Option (List Piece) :=
  match l with
  | [] => some []
  | c :: rest =>
    match fuel with
    | 0 => none
    | fuel + 1 =>
      if c = '\\' then
        match rest with
        | [] => none
        | e :: rest2 =>
          if e = 'g' then
            match rest2 with
            | [] => none
            | lt :: rest3 =>
              if lt = '<' then
                match rest3.dropWhile (fun d => !(d = '>')) with
                | [] => none
                | _ :: rest4 =>
                  let name := rest3.takeWhile (fun d => !(d = '>'))
                  if name = [] then none
                  else if name.all Char.isDigit then
                    if digitsVal name ≤ groups then
                      (parseT groups fuel rest4).map
                        (fun ps => Piece.group (digitsVal name) :: ps)
                    else none
                  else none
              else none
          else if e = '0' then
            match rest2 with
            | [] => some [Piece.lit (Char.ofNat 0)]
            | d1 :: rest3 =>
              if isOct d1 then
                match rest3 with
                | [] => some [Piece.lit (Char.ofNat (digVal d1))]
                | d2 :: rest4 =>
                  if isOct d2 then
                    (parseT groups fuel rest4).map
                      (fun ps => Piece.lit (Char.ofNat (digVal d1 * 8 + digVal d2)) :: ps)
                  else
                    (parseT groups fuel rest3).map
                      (fun ps => Piece.lit (Char.ofNat (digVal d1)) :: ps)
              else
                (parseT groups fuel rest2).map
                  (fun ps => Piece.lit (Char.ofNat 0) :: ps)
          else if e.isDigit then
            match rest2 with
            | [] => if digVal e ≤ groups then some [Piece.group (digVal e)] else none
            | d2 :: rest3 =>
              if d2.isDigit then
                match rest3 with
                | d3 :: rest4 =>
                  if isOct e && isOct d2 && isOct d3 then
                    if digVal e * 64 + digVal d2 * 8 + digVal d3 > 255 then none
                    else
                      (parseT groups fuel rest4).map
                        (fun ps =>
                          Piece.lit (Char.ofNat (digVal e * 64 + digVal d2 * 8 + digVal d3)) :: ps)
                  else if digVal e * 10 + digVal d2 ≤ groups then
                    (parseT groups fuel rest3).map
                      (fun ps => Piece.group (digVal e * 10 + digVal d2) :: ps)
                  else none
                | [] =>
                  if digVal e * 10 + digVal d2 ≤ groups then
                    some [Piece.group (digVal e * 10 + digVal d2)]
                  else none
              else if digVal e ≤ groups then
                (parseT groups fuel rest2).map (fun ps => Piece.group (digVal e) :: ps)
              else none
          else if e = '\\' then
            (parseT groups fuel rest2).map (fun ps => Piece.lit '\\' :: ps)
          else
            match escChar e with
            | some ch => (parseT groups fuel rest2).map (fun ps => Piece.lit ch :: ps)
            | none =>
              if isALetter e then none
              else
                (parseT groups fuel rest2).map
                  (fun ps => Piece.lit '\\' :: Piece.lit e :: ps)
      else
        (parseT groups fuel rest).map (fun ps => Piece.lit c :: ps)

/-- Parse a replacement template against a pattern with `groups` groups;
`re.sub` does this before scanning for matches, so a bad template raises
even when nothing matches. -/
def parse_template (groups : Nat) (l : List Char) : Option (List Piece) :=
  parseT groups l.length l

/-- Expansion of a parsed template at a match.  For both patterns here every
valid group index (0, and 1 for the PHP pattern whose single group spans the
whole pattern) refers to the entire matched text `g`. -/
def expand (g : List Char) : List Piece → List Char
  | [] => []
  | Piece.lit c :: ps => c :: expand g ps
  | Piece.group _ :: ps => g ++ expand g ps

/-- The scan-and-replace loop shared by
`re.sub(r'^(<\?php\s*)', rf'\1\n{ai_header}\n', content, flags=re.MULTILINE)`
(lines 55-60) and `re.sub(r'^<\?php\s*', config_header, content,
flags=re.MULTILINE)` (line 256), after the replacement template has been
parsed into `pieces`: scan left to right, `atLS` saying whether the position
is a line start of the original text; each match `<?php\s*` is replaced by
the expanded template, and scanning resumes after the match. -/
def subT (pieces : List Piece) (atLS : Bool) (l : List Char) : List Char :=
  match l with
  | [] => []
  | c :: tl =>
    if atLS && startsWithPhp (c :: tl) then
      let ws := (tl.drop 4).takeWhile isWS
      let rest2 := (tl.drop 4).dropWhile isWS
      expand ('<' :: '?' :: 'p' :: 'h' :: 'p' :: ws) pieces ++
        subT pieces (wsEndsNL ws) rest2
    else
      c :: subT pieces (c == '\n') tl
termination_by l.length
decreasing_by
  · simp only [List.length_cons]
    exact Nat.lt_succ_of_le
      (Nat.le_trans (List.dropWhile_sublist isWS).length_le
        (List.drop_sublist 4 _).length_le)
  · simp only [List.length_cons]
    omega

/-- Whether the text has a (line-start) `<?php` match at all, scanning with
the same line-start discipline as the substitutions. -/
def hasPhpOpen (atLS : Bool) (l : List Char) : Bool :=
  match l with
  | [] => false
  | c :: rest => (atLS && startsWithPhp (c :: rest)) || hasPhpOpen (c == '\n') rest

/-- `generate_ai_header(analysis, file_path)` (lines 163-176): the f-string
template, with every interpolated field an argument (the fields are derived
from the file's analysis; the claims quantify over them). -/
def generate_ai_header (desc layer cx counts deps patterns classes methods
    test date integration security performance : List Char) : List Char :=
  str "// AGENT_ENHANCED: Comprehensive AI context auto-generated\n// AGENT_MODULE: " ++ desc ++
  str "\n// AGENT_LAYER: " ++ layer ++
  str "\n// AGENT_COMPLEXITY: " ++ cx ++ str " (" ++ counts ++ str ")" ++
  str "\n// AGENT_DEPENDENCIES: " ++ deps ++
  str "\n// AGENT_PATTERNS: " ++ patterns ++
  str "\n// AGENT_CLASSES: " ++ classes ++
  str "\n// AGENT_PUBLIC_METHODS: " ++ methods ++
  str "\n// AGENT_TEST_COVERAGE: " ++ test ++
  str "\n// AGENT_RECENT_CHANGES: Enhanced for AI agent context (" ++ date ++ str ")" ++
  str "\n// AGENT_MAINTENANCE_NOTES: Auto-generated AI context - update when major changes occur" ++
  str "\n// AGENT_INTEGRATION_POINTS: " ++ integration ++
  str "\n// AGENT_SECURITY_CONTEXT: " ++ security ++
  str "\n// AGENT_PERFORMANCE_NOTES: " ++ performance

/-- `config_header` of `enhance_config_file` (lines 244-253): the f-string
template with the interpolated stem and date as arguments. -/
def config_header (stem date : List Char) : List Char :=
  str "<?php\n\n// AGENT_ENHANCED: Configuration file with AI context\n// AGENT_MODULE: Application configuration for " ++ stem ++
  str "\n// AGENT_LAYER: Configuration\n// AGENT_PURPOSE: System configuration and environment-specific settings\n// AGENT_SECURITY_NOTE: Contains sensitive configuration - review before committing\n// AGENT_RECENT_CHANGES: Enhanced for AI agent context (" ++ date ++
  str ")\n\n"

/-- The replacement template `rf'\1\n{ai_header}\n'` of line 57: a raw
f-string, so its characters are backslash, `1`, backslash, `n`, the header
text, backslash, `n`. -/
def php_template (header : List Char) : List Char :=
  '\\' :: '1' :: '\\' :: 'n' :: (header ++ ['\\', 'n'])

/-- `enhance_php_file` (lines 38-67) as the file-content transform it
performs: early return when the sentinel is present; otherwise `re.sub`
first parses the replacement template (the generated header interpolated
into `rf'\1\n{ai_header}\n'`, against the one-group pattern) — if that
raises (e.g. `bad escape` from a backslashed PHP namespace in
`AGENT_DEPENDENCIES`), the `except` of line 66 catches it and the file is
left unchanged; on success the substitution runs. -/
def enhance_php_file (header content : List Char) : List Char :=
  if sentinel <:+: content then content
  else
    match parse_template 1 (php_template header) with
    | none => content
    | some pieces => subT pieces true content

/-- `enhance_config_file` (lines 236-262) as the file-content transform:
sentinel guard, then the config header itself is the replacement template
(parsed against the group-less pattern `^<\?php\s*`); a template error is
caught by the `except` of line 261, leaving the file unchanged. -/
def enhance_config_file (header content : List Char) : List Char :=
  if sentinel <:+: content then content
  else
    match parse_template 0 header with
    | none => content
    | some pieces => subT pieces true content

end Enh

namespace GHA

/-- Helper: membership in a cons list is implied by membership in the tail. -/
theorem memIndicator_mono (a : List Char) (k : Nat) (labels : List (List Char))
    (x : List Char) :
    (if a ∈ labels then k else 0) ≤ (if a ∈ x :: labels then k else 0) := by
  by_cases h : a ∈ labels
  · simp [h, List.mem_cons_of_mem x h]
  · simp [h]

/-- Helper: the complexity bonus term is monotone under adding a label. -/
theorem complexityBonus_mono (labels : List (List Char)) (x : List Char) :
    (if str "complexity-low" ∈ labels then 20
     else if str "complexity-medium" ∈ labels then 10 else 0) ≤
    (if str "complexity-low" ∈ x :: labels then 20
     else if str "complexity-medium" ∈ x :: labels then 10 else 0) := by
  by_cases hl : str "complexity-low" ∈ labels
  · simp [hl, List.mem_cons_of_mem x hl]
  · by_cases hm : str "complexity-medium" ∈ labels
    · have hm2 : str "complexity-medium" ∈ x :: labels := List.mem_cons_of_mem x hm
      by_cases hl2 : str "complexity-low" ∈ x :: labels
      · simp [hl, hm, hl2]
      · simp [hl, hm, hl2, hm2]
    · simp [hl, hm]

/-- Helper: the full characterization of `is_ai_ready`. -/
theorem is_ai_ready_iff (issue : Issue) (labels : List (List Char)) :
    is_ai_ready issue labels = true ↔
      ¬(str "needs discussion" ∈ labels ∨ str "blocked" ∈ labels ∨
          str "waiting for input" ∈ labels) ∧
        (str "good first issue" ∈ labels ∨ str "help wanted" ∈ labels ∨
          str "bug" ∈ labels ∨ str "ai-agent-ready" ∈ labels ∨
          (issue.body.getD []).length > 100) := by
  unfold is_ai_ready blocking_labels ai_ready_labels
  simp only [List.any_cons, List.any_nil, Bool.or_false, Bool.or_eq_true,
    decide_eq_true_eq]
  split_ifs with h1 h2 h3 <;> (simp_all; try tauto)

/-- C1: `is_ai_ready` is false when a blocking label is present, else true
exactly when a ready label is present or the body (empty when absent)
exceeds 100 characters. -/
theorem C1_is_ai_ready_spec (issue : Issue) (labels : List (List Char)) :
    is_ai_ready issue labels = true ↔
      ¬(str "needs discussion" ∈ labels ∨ str "blocked" ∈ labels ∨
          str "waiting for input" ∈ labels) ∧
        (str "good first issue" ∈ labels ∨ str "help wanted" ∈ labels ∨
          str "bug" ∈ labels ∨ str "ai-agent-ready" ∈ labels ∨
          (issue.body.getD []).length > 100) :=
  is_ai_ready_iff issue labels

/-- C2: the readiness score is the clamped sum of the base 50 and the label,
complexity, body-length and assignee bonuses; on labels
`["bug", "ai-agent-ready"]` with empty body and no assignee the issue is
ready with score 100. -/
theorem C2_readiness_score_formula :
    (∀ (issue : Issue) (labels : List (List Char)),
      calculate_readiness_score issue labels =
        min 100 (50
          + (if str "good first issue" ∈ labels then 20 else 0)
          + (if str "ai-agent-ready" ∈ labels then 25 else 0)
          + (if str "bug" ∈ labels then 15 else 0)
          + (if str "enhancement" ∈ labels then 10 else 0)
          + (if str "complexity-low" ∈ labels then 20
             else if str "complexity-medium" ∈ labels then 10 else 0)
          + (if (issue.body.getD []).length > 200 then 15 else 0)
          + (if issue.assignee = none then 10 else 0))) ∧
    (∀ (issue : Issue), issue.body = some [] → issue.assignee = none →
      is_ai_ready issue [str "bug", str "ai-agent-ready"] = true ∧
      calculate_readiness_score issue [str "bug", str "ai-agent-ready"] = 100) := by
  constructor
  · intro issue labels
    unfold calculate_readiness_score
    rw [Nat.min_comm]
  · intro issue hb ha
    constructor
    · unfold is_ai_ready blocking_labels ai_ready_labels
      simp [str]
    · unfold calculate_readiness_score
      rw [hb, ha]
      simp [str]

/-- C2 witness: the second part at a concrete issue. -/
theorem C2_readiness_score_formula_witness :
    is_ai_ready
        { number := 1, title := [], labels := [], body := some [],
          assignee := none, html_url := [] }
        [str "bug", str "ai-agent-ready"] = true ∧
      calculate_readiness_score
        { number := 1, title := [], labels := [], body := some [],
          assignee := none, html_url := [] }
        [str "bug", str "ai-agent-ready"] = 100 :=
  C2_readiness_score_formula.2
    { number := 1, title := [], labels := [], body := some [],
      assignee := none, html_url := [] } rfl rfl

end GHA

namespace GHA

/-- C6: adding any single label can only keep or raise the readiness score,
and the score never exceeds 100. -/
theorem C6_score_monotone_clamped (issue : Issue) (labels : List (List Char))
    (x : List Char) :
    calculate_readiness_score issue labels ≤
        calculate_readiness_score issue (x :: labels) ∧
      calculate_readiness_score issue labels ≤ 100 := by
  constructor
  · unfold calculate_readiness_score
    refine min_le_min ?_ le_rfl
    have h1 := memIndicator_mono (str "good first issue") 20 labels x
    have h2 := memIndicator_mono (str "ai-agent-ready") 25 labels x
    have h3 := memIndicator_mono (str "bug") 15 labels x
    have h4 := memIndicator_mono (str "enhancement") 10 labels x
    have h5 := complexityBonus_mono labels x
    omega
  · unfold calculate_readiness_score
    exact Nat.min_le_right _ _

/-- C5 counterexample: the label `"complexity-lowest"` is not the exact value
`"complexity-low"`, yet `extract_complexity` returns `"low"` for it, because
the code tests substring containment. -/
theorem C5_counterexample :
    extract_complexity [str "complexity-lowest"] = str "low" ∧
      str "complexity-low" ∉ [str "complexity-lowest"] := by
  constructor
  · decide
  · decide

/-- C5 (amended): `extract_complexity` returns low/medium/high exactly when
some label CONTAINS `"complexity-low"`/`"complexity-medium"`/
`"complexity-high"` as a substring, in that order of precedence, and
`"unknown"` otherwise. -/
theorem C5_extract_complexity_substring (labels : List (List Char)) :
    (extract_complexity labels = str "low" ↔
      ∃ l ∈ labels, str "complexity-low" <:+: l) ∧
    (extract_complexity labels = str "medium" ↔
      (¬∃ l ∈ labels, str "complexity-low" <:+: l) ∧
        ∃ l ∈ labels, str "complexity-medium" <:+: l) ∧
    (extract_complexity labels = str "high" ↔
      (¬∃ l ∈ labels, str "complexity-low" <:+: l) ∧
        (¬∃ l ∈ labels, str "complexity-medium" <:+: l) ∧
        ∃ l ∈ labels, str "complexity-high" <:+: l) ∧
    (extract_complexity labels = str "unknown" ↔
      (¬∃ l ∈ labels, str "complexity-low" <:+: l) ∧
        (¬∃ l ∈ labels, str "complexity-medium" <:+: l) ∧
        ¬∃ l ∈ labels, str "complexity-high" <:+: l) := by
  unfold extract_complexity
  simp only [List.any_eq_true, decide_eq_true_eq]
  split_ifs with h1 h2 h3 <;>
    refine ⟨?_, ?_, ?_, ?_⟩ <;> simp_all [str]

/-- C7: priority extraction on the lowercased labels (as `analyze_issues`
lowercases every label name before calling `extract_priority`) scans for the
substrings "high priority"/"critical", then "medium priority", then
"low priority", defaulting to medium. -/
theorem C7_priority_substring_scan (rawLabels : List (List Char)) :
    (extract_priority (rawLabels.map lowerStr) = str "high" ↔
      ∃ l ∈ rawLabels, str "high priority" <:+: lowerStr l ∨
        str "critical" <:+: lowerStr l) ∧
    (extract_priority (rawLabels.map lowerStr) = str "low" ↔
      (¬∃ l ∈ rawLabels, str "high priority" <:+: lowerStr l ∨
          str "critical" <:+: lowerStr l) ∧
        (¬∃ l ∈ rawLabels, str "medium priority" <:+: lowerStr l) ∧
        ∃ l ∈ rawLabels, str "low priority" <:+: lowerStr l) ∧
    (extract_priority (rawLabels.map lowerStr) = str "medium" ↔
      (¬∃ l ∈ rawLabels, str "high priority" <:+: lowerStr l ∨
          str "critical" <:+: lowerStr l) ∧
        ((∃ l ∈ rawLabels, str "medium priority" <:+: lowerStr l) ∨
          ¬∃ l ∈ rawLabels, str "low priority" <:+: lowerStr l)) := by
  unfold extract_priority
  simp only [List.any_map, List.any_eq_true, Function.comp, Bool.or_eq_true,
    decide_eq_true_eq]
  split_ifs with h1 h2 h3 <;>
    refine ⟨?_, ?_, ?_⟩ <;> simp_all [str]

end GHA

namespace GHA

/-- C3 counterexample: the mock fallback's `ai_ready_tasks` lists scores
85 then 90 and is therefore NOT sorted in descending order of
`readiness_score`. -/
theorem C3_counterexample :
    ¬ ((create_mock_analysis (str "otpplus/securify")
          (str "2025-01-01T00:00:00")).ai_ready_tasks.Pairwise
        (fun a b => a.readiness_score ≥ b.readiness_score)) := by
  unfold create_mock_analysis
  simp [List.pairwise_cons]

/-- C3 (amended): the live `analyze_issues` path does sort `ai_ready_tasks`
in descending order of `readiness_score` (the mock fallback path does not). -/
theorem C3_analyze_issues_sorted (repo ts : List Char) (issues : List Issue) :
    (analyze_issues repo ts issues).ai_ready_tasks.Pairwise
      (fun a b => a.readiness_score ≥ b.readiness_score) := by
  have h := @List.sorted_mergeSort ReadyTask
      (fun x y => decide (y.readiness_score ≤ x.readiness_score))
      (by
        intro a b c hab hbc
        simp only [decide_eq_true_eq] at hab hbc ⊢
        omega)
      (by
        intro a b
        simp only [Bool.or_eq_true, decide_eq_true_eq]
        omega)
      ((issues.foldl analyzeStep (initAnalysis repo ts issues)).ai_ready_tasks)
  unfold analyze_issues
  refine List.Pairwise.imp ?_ h
  intro a b hab
  simp only [decide_eq_true_eq] at hab
  omega

/-- C4: whenever the credential is missing, the request raises, or the
status is not 200, `analyze_projects` returns exactly the mock dataset, and
the mock's repository field is the detected-or-fallback repository string. -/
theorem C4_fallback_to_mock (repo ts : List Char) (token : Option (List Char))
    (resp : HttpResult)
    (h : token = none ∨ resp = .err ∨
      ∀ (status : Nat) (issues_ : List Issue), resp = .ok status issues_ →
        status ≠ 200) :
    analyze_projects repo ts token resp = create_mock_analysis repo ts ∧
      (create_mock_analysis repo ts).repository = repo := by
  refine ⟨?_, rfl⟩
  rcases h with rfl | rfl | h
  · rfl
  · cases token <;> rfl
  · cases token with
    | none => rfl
    | some t =>
      cases resp with
      | err => rfl
      | ok status issues_ =>
        show (if status = 200 then analyze_issues repo ts issues_
          else create_mock_analysis repo ts) = create_mock_analysis repo ts
        rw [if_neg (h status issues_ rfl)]

/-- C4 witness: an HTTP 404 response with a token present falls back to the
mock dataset. -/
theorem C4_fallback_to_mock_witness :
    analyze_projects (str "otpplus/securify") (str "2025-01-01T00:00:00")
        (some (str "token")) (.ok 404 []) =
      create_mock_analysis (str "otpplus/securify") (str "2025-01-01T00:00:00") ∧
      (create_mock_analysis (str "otpplus/securify")
          (str "2025-01-01T00:00:00")).repository = str "otpplus/securify" :=
  C4_fallback_to_mock (str "otpplus/securify") (str "2025-01-01T00:00:00")
    (some (str "token")) (.ok 404 [])
    (Or.inr (Or.inr (fun status issues_ h => by cases h; decide)))

end GHA

namespace GHA

/-- Helper: `extract_priority` only ever returns one of the three keys of
`priority_distribution`. -/
theorem extract_priority_cases (labels : List (List Char)) :
    extract_priority labels = str "high" ∨ extract_priority labels = str "medium" ∨
      extract_priority labels = str "low" := by
  unfold extract_priority
  split_ifs <;> simp

/-- Helper: `extract_complexity` only ever returns one of the four keys of
`complexity_distribution`. -/
theorem extract_complexity_cases (labels : List (List Char)) :
    extract_complexity labels = str "low" ∨ extract_complexity labels = str "medium" ∨
      extract_complexity labels = str "high" ∨
      extract_complexity labels = str "unknown" := by
  unfold extract_complexity
  split_ifs <;> simp

/-- Helper: `bumpPriority` leaves `total_issues` unchanged. -/
theorem bumpPriority_total (a : Analysis) (p : List Char) :
    (bumpPriority a p).total_issues = a.total_issues := by
  unfold bumpPriority
  split_ifs <;> rfl

/-- Helper: `bumpComplexity` leaves `total_issues` unchanged. -/
theorem bumpComplexity_total (a : Analysis) (c : List Char) :
    (bumpComplexity a c).total_issues = a.total_issues := by
  unfold bumpComplexity
  split_ifs <;> rfl

/-- Helper: `bumpPriority` leaves the task list unchanged. -/
theorem bumpPriority_tasks (a : Analysis) (p : List Char) :
    (bumpPriority a p).ai_ready_tasks = a.ai_ready_tasks := by
  unfold bumpPriority
  split_ifs <;> rfl

/-- Helper: `bumpComplexity` leaves the task list unchanged. -/
theorem bumpComplexity_tasks (a : Analysis) (c : List Char) :
    (bumpComplexity a c).ai_ready_tasks = a.ai_ready_tasks := by
  unfold bumpComplexity
  split_ifs <;> rfl

/-- Helper: `bumpComplexity` leaves the priority counters unchanged. -/
theorem bumpComplexity_pri (a : Analysis) (c : List Char) :
    (bumpComplexity a c).priority_high = a.priority_high ∧
      (bumpComplexity a c).priority_medium = a.priority_medium ∧
      (bumpComplexity a c).priority_low = a.priority_low := by
  unfold bumpComplexity
  split_ifs <;> exact ⟨rfl, rfl, rfl⟩

/-- Helper: `bumpPriority` leaves the complexity counters unchanged. -/
theorem bumpPriority_cx (a : Analysis) (p : List Char) :
    (bumpPriority a p).complexity_low = a.complexity_low ∧
      (bumpPriority a p).complexity_medium = a.complexity_medium ∧
      (bumpPriority a p).complexity_high = a.complexity_high ∧
      (bumpPriority a p).complexity_unknown = a.complexity_unknown := by
  unfold bumpPriority
  split_ifs <;> exact ⟨rfl, rfl, rfl, rfl⟩

/-- Helper: on the three reachable keys, `bumpPriority` adds exactly one to
the priority counters in total. -/
theorem bumpPriority_prisum (a : Analysis) (p : List Char)
    (h : p = str "high" ∨ p = str "medium" ∨ p = str "low") :
    (bumpPriority a p).priority_high + (bumpPriority a p).priority_medium +
        (bumpPriority a p).priority_low =
      a.priority_high + a.priority_medium + a.priority_low + 1 := by
  rcases h with rfl | rfl | rfl
  · unfold bumpPriority
    rw [if_pos rfl]
    simp only []
    omega
  · unfold bumpPriority
    rw [if_neg (by decide), if_pos rfl]
    simp only []
    omega
  · unfold bumpPriority
    rw [if_neg (by decide), if_neg (by decide), if_pos rfl]
    simp only []
    omega

/-- Helper: on the four reachable keys, `bumpComplexity` adds exactly one to
the complexity counters in total. -/
theorem bumpComplexity_cxsum (a : Analysis) (c : List Char)
    (h : c = str "low" ∨ c = str "medium" ∨ c = str "high" ∨ c = str "unknown") :
    (bumpComplexity a c).complexity_low + (bumpComplexity a c).complexity_medium +
        (bumpComplexity a c).complexity_high +
        (bumpComplexity a c).complexity_unknown =
      a.complexity_low + a.complexity_medium + a.complexity_high +
        a.complexity_unknown + 1 := by
  rcases h with rfl | rfl | rfl | rfl
  · unfold bumpComplexity
    rw [if_pos rfl]
    simp only []
    omega
  · unfold bumpComplexity
    rw [if_neg (by decide), if_pos rfl]
    simp only []
    omega
  · unfold bumpComplexity
    rw [if_neg (by decide), if_neg (by decide), if_pos rfl]
    simp only []
    omega
  · unfold bumpComplexity
    rw [if_neg (by decide), if_neg (by decide), if_neg (by decide), if_pos rfl]
    simp only []
    omega

end GHA

namespace GHA

/-- Helper: one loop iteration leaves `total_issues` unchanged. -/
theorem analyzeStep_total (a : Analysis) (i : Issue) :
    (analyzeStep a i).total_issues = a.total_issues := by
  simp only [analyzeStep]
  rw [bumpComplexity_total, bumpPriority_total]
  split_ifs <;> rfl

/-- Helper: one loop iteration increments the priority counters by exactly
one in total. -/
theorem analyzeStep_prisum (a : Analysis) (i : Issue) :
    (analyzeStep a i).priority_high + (analyzeStep a i).priority_medium +
        (analyzeStep a i).priority_low =
      a.priority_high + a.priority_medium + a.priority_low + 1 := by
  simp only [analyzeStep]
  obtain ⟨e1, e2, e3⟩ := bumpComplexity_pri
    (bumpPriority
      (if is_ai_ready i (i.labels.map lowerStr) = true then
        { a with ai_ready_tasks :=
            a.ai_ready_tasks ++ [mkTask i (i.labels.map lowerStr)] }
      else a)
      (extract_priority (i.labels.map lowerStr)))
    (extract_complexity (i.labels.map lowerStr))
  rw [e1, e2, e3,
    bumpPriority_prisum _ _ (extract_priority_cases (i.labels.map lowerStr))]
  split_ifs <;> rfl

/-- Helper: one loop iteration increments the complexity counters by exactly
one in total. -/
theorem analyzeStep_cxsum (a : Analysis) (i : Issue) :
    (analyzeStep a i).complexity_low + (analyzeStep a i).complexity_medium +
        (analyzeStep a i).complexity_high + (analyzeStep a i).complexity_unknown =
      a.complexity_low + a.complexity_medium + a.complexity_high +
        a.complexity_unknown + 1 := by
  simp only [analyzeStep]
  rw [bumpComplexity_cxsum _ _ (extract_complexity_cases (i.labels.map lowerStr))]
  obtain ⟨e1, e2, e3, e4⟩ := bumpPriority_cx
    (if is_ai_ready i (i.labels.map lowerStr) = true then
      { a with ai_ready_tasks :=
          a.ai_ready_tasks ++ [mkTask i (i.labels.map lowerStr)] }
    else a)
    (extract_priority (i.labels.map lowerStr))
  rw [e1, e2, e3, e4]
  split_ifs <;> rfl

/-- Helper: one loop iteration appends at most one ready task. -/
theorem analyzeStep_tasks (a : Analysis) (i : Issue) :
    (analyzeStep a i).ai_ready_tasks.length ≤ a.ai_ready_tasks.length + 1 := by
  simp only [analyzeStep]
  rw [bumpComplexity_tasks, bumpPriority_tasks]
  split_ifs <;> simp

end GHA

namespace GHA

/-- Helper: the loop over the issues preserves `total_issues`, adds the
number of issues to each distribution total, and appends at most one task
per issue. -/
theorem foldl_analyzeStep_invariants (issues : List Issue) (a : Analysis) :
    (issues.foldl analyzeStep a).total_issues = a.total_issues ∧
      (issues.foldl analyzeStep a).priority_high +
          (issues.foldl analyzeStep a).priority_medium +
          (issues.foldl analyzeStep a).priority_low =
        a.priority_high + a.priority_medium + a.priority_low + issues.length ∧
      (issues.foldl analyzeStep a).complexity_low +
          (issues.foldl analyzeStep a).complexity_medium +
          (issues.foldl analyzeStep a).complexity_high +
          (issues.foldl analyzeStep a).complexity_unknown =
        a.complexity_low + a.complexity_medium + a.complexity_high +
          a.complexity_unknown + issues.length ∧
      (issues.foldl analyzeStep a).ai_ready_tasks.length ≤
        a.ai_ready_tasks.length + issues.length := by
  induction issues generalizing a with
  | nil => simp
  | cons i rest ih =>
    simp only [List.foldl_cons, List.length_cons]
    obtain ⟨ih1, ih2, ih3, ih4⟩ := ih (analyzeStep a i)
    have h1 := analyzeStep_total a i
    have h2 := analyzeStep_prisum a i
    have h3 := analyzeStep_cxsum a i
    have h4 := analyzeStep_tasks a i
    exact ⟨by omega, by omega, by omega, by omega⟩

/-- C9: in every `analyze_issues` result, `total_issues` is the input length,
each distribution's counters sum to `total_issues`, and at most that many
tasks are AI-ready. -/
theorem C9_analysis_invariants (repo ts : List Char) (issues : List Issue) :
    (analyze_issues repo ts issues).total_issues = issues.length ∧
      (analyze_issues repo ts issues).priority_high +
          (analyze_issues repo ts issues).priority_medium +
          (analyze_issues repo ts issues).priority_low =
        (analyze_issues repo ts issues).total_issues ∧
      (analyze_issues repo ts issues).complexity_low +
          (analyze_issues repo ts issues).complexity_medium +
          (analyze_issues repo ts issues).complexity_high +
          (analyze_issues repo ts issues).complexity_unknown =
        (analyze_issues repo ts issues).total_issues ∧
      (analyze_issues repo ts issues).ai_ready_tasks.length ≤
        (analyze_issues repo ts issues).total_issues := by
  obtain ⟨h1, h2, h3, h4⟩ :=
    foldl_analyzeStep_invariants issues (initAnalysis repo ts issues)
  simp only [analyze_issues, initAnalysis, List.length_mergeSort]
  simp only [initAnalysis, List.length_nil] at h1 h2 h3 h4
  exact ⟨h1, by omega, by omega, by omega⟩

/-- C10: an issue whose body is absent behaves exactly as one with an empty
body: same readiness decision, same score, ready only via its labels. -/
theorem C10_missing_body (issue : Issue) (labels : List (List Char))
    (h : issue.body = none) :
    is_ai_ready issue labels = is_ai_ready { issue with body := some [] } labels ∧
      calculate_readiness_score issue labels =
        calculate_readiness_score { issue with body := some [] } labels ∧
      (is_ai_ready issue labels = true ↔
        ¬(str "needs discussion" ∈ labels ∨ str "blocked" ∈ labels ∨
            str "waiting for input" ∈ labels) ∧
          (str "good first issue" ∈ labels ∨ str "help wanted" ∈ labels ∨
            str "bug" ∈ labels ∨ str "ai-agent-ready" ∈ labels)) := by
  refine ⟨?_, ?_, ?_⟩
  · unfold is_ai_ready
    rw [h]
    simp
  · unfold calculate_readiness_score
    rw [h]
    simp
  · rw [is_ai_ready_iff issue labels, h]
    simp

/-- C10 witness: a concrete issue with a `None` body. -/
theorem C10_missing_body_witness :
    is_ai_ready
          { number := 7, title := str "t", labels := [], body := none,
            assignee := none, html_url := str "u" } [str "bug"] =
        is_ai_ready
          { number := 7, title := str "t", labels := [], body := some [],
            assignee := none, html_url := str "u" } [str "bug"] ∧
      calculate_readiness_score
          { number := 7, title := str "t", labels := [], body := none,
            assignee := none, html_url := str "u" } [str "bug"] =
        calculate_readiness_score
          { number := 7, title := str "t", labels := [], body := some [],
            assignee := none, html_url := str "u" } [str "bug"] ∧
      (is_ai_ready
          { number := 7, title := str "t", labels := [], body := none,
            assignee := none, html_url := str "u" } [str "bug"] = true ↔
        ¬(str "needs discussion" ∈ [str "bug"] ∨ str "blocked" ∈ [str "bug"] ∨
            str "waiting for input" ∈ [str "bug"]) ∧
          (str "good first issue" ∈ [str "bug"] ∨ str "help wanted" ∈ [str "bug"] ∨
            str "bug" ∈ [str "bug"] ∨ str "ai-agent-ready" ∈ [str "bug"])) :=
  C10_missing_body
    { number := 7, title := str "t", labels := [], body := none,
      assignee := none, html_url := str "u" } [str "bug"] rfl

end GHA

namespace Enh

/-- Helper: an infix of `l` is an infix of `l ++ r`. -/
theorem infix_append_extend {m l r : List Char} (h : m <:+: l) : m <:+: l ++ r := by
  obtain ⟨s, t, rfl⟩ := h
  exact ⟨s, t ++ r, by simp⟩

/-- Helper: an infix of `l` is an infix of `a :: l`. -/
theorem infix_cons_extend {m l : List Char} (a : Char) (h : m <:+: l) :
    m <:+: a :: l := by
  obtain ⟨s, t, rfl⟩ := h
  exact ⟨a :: s, t, by simp⟩

/-- Helper: the sentinel occurs in every generated PHP AI header, whatever
the interpolated analysis fields are. -/
theorem sentinel_in_ai_header (desc layer cx counts deps patterns classes
    methods test date integration security performance : List Char) :
    sentinel <:+: generate_ai_header desc layer cx counts deps patterns
      classes methods test date integration security performance := by
  unfold generate_ai_header
  have h0 : sentinel <:+:
      str "// AGENT_ENHANCED: Comprehensive AI context auto-generated\n// AGENT_MODULE: " := by
    decide
  simp only [List.append_assoc]
  exact infix_append_extend h0

/-- Helper: the sentinel occurs in every generated config header. -/
theorem sentinel_in_config_header (stem date : List Char) :
    sentinel <:+: config_header stem date := by
  unfold config_header
  have h0 : sentinel <:+:
      str "<?php\n\n// AGENT_ENHANCED: Configuration file with AI context\n// AGENT_MODULE: Application configuration for " := by
    decide
  simp only [List.append_assoc]
  exact infix_append_extend h0

/-- Helper: an infix of `r` is an infix of `l ++ r`. -/
theorem infix_append_left_extend {m l r : List Char} (h : m <:+: r) :
    m <:+: l ++ r := by
  obtain ⟨s, t, rfl⟩ := h
  exact ⟨l ++ s, t, by simp⟩

/-- Helper: the empty template parses to no pieces, whatever the fuel. -/
theorem parseT_nil (groups fuel : Nat) : parseT groups fuel [] = some [] := by
  cases fuel <;> rfl

/-- Helper: a non-backslash template character is a literal piece. -/
theorem parseT_cons_lit (groups fuel : Nat) (c : Char) (rest : List Char)
    (hc : ¬ c = '\\') :
    parseT groups (fuel + 1) (c :: rest) =
      (parseT groups fuel rest).map (fun ps => Piece.lit c :: ps) := by
  show (if c = '\\' then _
    else (parseT groups fuel rest).map (fun ps => Piece.lit c :: ps)) = _
  rw [if_neg hc]

/-- Helper: with no line-start `<?php` match, the substitution loop returns
the text unchanged. -/
theorem subT_no_match (pieces : List Piece) :
    ∀ (n : Nat) (atLS : Bool) (l : List Char), l.length ≤ n →
      hasPhpOpen atLS l = false → subT pieces atLS l = l := by
  intro n
  induction n with
  | zero =>
    intro atLS l hl _
    have hnil : l = [] := List.length_eq_zero.mp (Nat.le_zero.mp hl)
    subst hnil
    simp [subT]
  | succ n ih =>
    intro atLS l hl hno
    cases l with
    | nil => simp [subT]
    | cons c rest =>
      simp only [hasPhpOpen, Bool.or_eq_false_iff] at hno
      obtain ⟨hc, hrest⟩ := hno
      rw [subT]
      simp only [hc, Bool.false_eq_true, if_false]
      have hlen : rest.length ≤ n := by
        simp only [List.length_cons] at hl
        omega
      rw [ih (c == '\n') rest hlen hrest]

/-- Helper: when a line-start `<?php` match exists and every expansion of the
parsed template contains the sentinel, the substitution's output contains
the sentinel. -/
theorem subT_contains (pieces : List Piece)
    (hs : ∀ g : List Char, sentinel <:+: expand g pieces) :
    ∀ (n : Nat) (atLS : Bool) (l : List Char), l.length ≤ n →
      hasPhpOpen atLS l = true → sentinel <:+: subT pieces atLS l := by
  intro n
  induction n with
  | zero =>
    intro atLS l hl hyes
    have hnil : l = [] := List.length_eq_zero.mp (Nat.le_zero.mp hl)
    subst hnil
    simp [hasPhpOpen] at hyes
  | succ n ih =>
    intro atLS l hl hyes
    cases l with
    | nil => simp [hasPhpOpen] at hyes
    | cons c rest =>
      simp only [hasPhpOpen, Bool.or_eq_true] at hyes
      rw [subT]
      by_cases hc : (atLS && startsWithPhp (c :: rest)) = true
      · simp only [hc, if_true]
        exact infix_append_extend
          (hs ('<' :: '?' :: 'p' :: 'h' :: 'p' :: (rest.drop 4).takeWhile isWS))
      · rw [if_neg hc]
        rcases hyes with h | h
        · exact absurd h hc
        · have hlen : rest.length ≤ n := by
            simp only [List.length_cons] at hl
            omega
          exact infix_cons_extend c (ih (c == '\n') rest hlen h)

/-- Helper: expansion distributes over template concatenation. -/
theorem expand_append (g : List Char) (p q : List Piece) :
    expand g (p ++ q) = expand g p ++ expand g q := by
  induction p with
  | nil => simp [expand]
  | cons piece ps ih =>
    cases piece with
    | lit c => simp [expand, ih]
    | group k => simp [expand, ih]

/-- Helper: a run of literal pieces expands to itself. -/
theorem expand_map_lit (g : List Char) (l : List Char) :
    expand g (l.map Piece.lit) = l := by
  induction l with
  | nil => simp [expand]
  | cons c cs ih => simp [expand, ih]

/-- Helper: a backslash-free prefix of a template parses to its own literal
pieces, the remainder parsing with the leftover fuel. -/
theorem parseT_nb_append (groups : Nat) :
    ∀ (l : List Char) (fuel : Nat) (m : List Char), '\\' ∉ l →
      l.length ≤ fuel →
      parseT groups fuel (l ++ m) =
        (parseT groups (fuel - l.length) m).map
          (fun ps => l.map Piece.lit ++ ps) := by
  intro l
  induction l with
  | nil =>
    intro fuel m _ _
    simp
  | cons c l2 ih =>
    intro fuel m hnb hlen
    cases fuel with
    | zero =>
      simp only [List.length_cons] at hlen
      omega
    | succ fuel =>
      have hc : ¬ c = '\\' := fun h => hnb (h ▸ List.mem_cons_self c l2)
      rw [List.cons_append, parseT_cons_lit groups fuel c (l2 ++ m) hc]
      rw [ih fuel m (fun h => hnb (List.mem_cons_of_mem c h))
        (by simp only [List.length_cons] at hlen; omega)]
      simp only [List.length_cons, Nat.add_sub_add_right, List.map_cons,
        Option.map_map]
      rfl

/-- Helper: a backslash-free replacement template parses to its literal
pieces (the config-file case, where the header is the whole template). -/
theorem parse_template_nb (groups : Nat) (l : List Char) (hnb : '\\' ∉ l) :
    parse_template groups l = some (l.map Piece.lit) := by
  unfold parse_template
  have h := parseT_nb_append groups l l.length [] hnb le_rfl
  simp only [List.append_nil, Nat.sub_self] at h
  rw [h, parseT_nil]
  simp

/-- Helper: the leading `\1\n` of the PHP replacement template parses to a
group-1 reference and a newline. -/
theorem parseT_php_prefix (fuel : Nat) (l : List Char) :
    parseT 1 (fuel + 1 + 1) ('\\' :: '1' :: '\\' :: 'n' :: l) =
      (parseT 1 fuel l).map
        (fun ps => Piece.group 1 :: Piece.lit '\n' :: ps) := by
  show ((parseT 1 fuel l).map (fun ps => Piece.lit '\n' :: ps)).map
      (fun ps => Piece.group 1 :: ps) = _
  cases parseT 1 fuel l <;> rfl

/-- Helper: the trailing `\n` of the PHP replacement template parses to a
newline literal. -/
theorem parseT_bsn (fuel : Nat) :
    parseT 1 (fuel + 1) ['\\', 'n'] = some [Piece.lit '\n'] := by
  show (parseT 1 fuel []).map (fun ps => Piece.lit '\n' :: ps) = _
  rw [parseT_nil]
  rfl

/-- Helper: for a backslash-free header, the full PHP replacement template
`\1\n{header}\n` parses to group 1, newline, the header's literals and a
newline. -/
theorem php_template_parse (header : List Char) (hnb : '\\' ∉ header) :
    parse_template 1 (php_template header) =
      some (Piece.group 1 :: Piece.lit '\n' ::
        (header.map Piece.lit ++ [Piece.lit '\n'])) := by
  unfold parse_template php_template
  have hL : ('\\' :: '1' :: '\\' :: 'n' :: (header ++ ['\\', 'n'])).length =
      header.length + 4 + 1 + 1 := by
    simp
  rw [hL, parseT_php_prefix (header.length + 4) (header ++ ['\\', 'n'])]
  rw [parseT_nb_append 1 header (header.length + 4) ['\\', 'n'] hnb (by omega)]
  have h4 : header.length + 4 - header.length = 3 + 1 := by omega
  rw [h4, parseT_bsn 3]
  rfl

/-- Helper: every expansion of the parsed PHP template contains the sentinel
when the header does. -/
theorem sentinel_in_php_expand (header g : List Char)
    (hh : sentinel <:+: header) :
    sentinel <:+: expand g (Piece.group 1 :: Piece.lit '\n' ::
      (header.map Piece.lit ++ [Piece.lit '\n'])) := by
  have he : expand g (Piece.group 1 :: Piece.lit '\n' ::
      (header.map Piece.lit ++ [Piece.lit '\n'])) =
      g ++ '\n' :: (header ++ ['\n']) := by
    show g ++ '\n' :: expand g (header.map Piece.lit ++ [Piece.lit '\n']) = _
    rw [expand_append, expand_map_lit]
    rfl
  rw [he]
  exact infix_append_left_extend
    (infix_cons_extend '\n' (infix_append_extend hh))

end Enh

namespace Enh

set_option maxRecDepth 40000 in
/-- C8 counterexample: two fresh files that do not gain the sentinel.  A
file with no `<?php` line (`"hello"`) is rewritten unchanged; and a PHP file
whose captured dependency `App\Http` reaches the replacement template makes
the template parse raise `bad escape \H`, so the caught error leaves the
file unchanged — in both cases without the sentinel. -/
theorem C8_counterexample :
    (enhance_php_file
        (generate_ai_header (str "d") (str "l") (str "c") (str "n") (str "dep")
          (str "pat") (str "cls") (str "m") (str "t") (str "date") (str "i")
          (str "s") (str "p"))
        (str "hello") = str "hello" ∧
      ¬ sentinel <:+:
        enhance_php_file
          (generate_ai_header (str "d") (str "l") (str "c") (str "n") (str "dep")
            (str "pat") (str "cls") (str "m") (str "t") (str "date") (str "i")
            (str "s") (str "p"))
          (str "hello")) ∧
    (enhance_php_file
        (generate_ai_header (str "d") (str "l") (str "c") (str "n")
          (str "App\\Http") (str "pat") (str "cls") (str "m") (str "t")
          (str "date") (str "i") (str "s") (str "p"))
        (str "<?php\nuse App\\Http;\n") = str "<?php\nuse App\\Http;\n" ∧
      ¬ sentinel <:+:
        enhance_php_file
          (generate_ai_header (str "d") (str "l") (str "c") (str "n")
            (str "App\\Http") (str "pat") (str "cls") (str "m") (str "t")
            (str "date") (str "i") (str "s") (str "p"))
          (str "<?php\nuse App\\Http;\n")) := by
  refine ⟨⟨?_, ?_⟩, ⟨?_, ?_⟩⟩
  · unfold enhance_php_file
    rw [if_neg (by decide),
      php_template_parse _ (by decide)]
    exact subT_no_match _ (str "hello").length true (str "hello") le_rfl
      (by decide)
  · rw [show enhance_php_file
        (generate_ai_header (str "d") (str "l") (str "c") (str "n") (str "dep")
          (str "pat") (str "cls") (str "m") (str "t") (str "date") (str "i")
          (str "s") (str "p"))
        (str "hello") = str "hello" from by
      unfold enhance_php_file
      rw [if_neg (by decide), php_template_parse _ (by decide)]
      exact subT_no_match _ (str "hello").length true (str "hello") le_rfl
        (by decide)]
    decide
  · unfold enhance_php_file
    rw [if_neg (by decide)]
    rw [show parse_template 1 (php_template
        (generate_ai_header (str "d") (str "l") (str "c") (str "n")
          (str "App\\Http") (str "pat") (str "cls") (str "m") (str "t")
          (str "date") (str "i") (str "s") (str "p"))) = none from by decide]
  · rw [show enhance_php_file
        (generate_ai_header (str "d") (str "l") (str "c") (str "n")
          (str "App\\Http") (str "pat") (str "cls") (str "m") (str "t")
          (str "date") (str "i") (str "s") (str "p"))
        (str "<?php\nuse App\\Http;\n") = str "<?php\nuse App\\Http;\n" from by
      unfold enhance_php_file
      rw [if_neg (by decide)]
      rw [show parse_template 1 (php_template
          (generate_ai_header (str "d") (str "l") (str "c") (str "n")
            (str "App\\Http") (str "pat") (str "cls") (str "m") (str "t")
            (str "date") (str "i") (str "s") (str "p"))) = none from by decide]]
    decide

/-- C8 (amended): a file already containing the sentinel is left unchanged;
if the replacement template fails to parse (a bad escape, e.g. a backslashed
PHP namespace interpolated into it), the caught error leaves the file
unchanged without the sentinel; for a backslash-free sentinel-bearing header
(as generated), a fresh file with a line-start `<?php` gains the sentinel; a
file with no line-start `<?php` is always rewritten unchanged; and under a
backslash-free sentinel-bearing header a second run is a no-op. -/
theorem C8_enhance_idempotent (header content : List Char) :
    (sentinel <:+: content →
        enhance_php_file header content = content ∧
          enhance_config_file header content = content) ∧
      (parse_template 1 (php_template header) = none →
        enhance_php_file header content = content) ∧
      (parse_template 0 header = none →
        enhance_config_file header content = content) ∧
      ('\\' ∉ header → sentinel <:+: header → hasPhpOpen true content = true →
        sentinel <:+: enhance_php_file header content ∧
          sentinel <:+: enhance_config_file header content) ∧
      (hasPhpOpen true content = false →
        enhance_php_file header content = content ∧
          enhance_config_file header content = content) ∧
      ('\\' ∉ header → sentinel <:+: header →
        enhance_php_file header (enhance_php_file header content) =
            enhance_php_file header content ∧
          enhance_config_file header (enhance_config_file header content) =
            enhance_config_file header content) := by
  have g1 : ∀ c : List Char, sentinel <:+: c → enhance_php_file header c = c := by
    intro c hc
    unfold enhance_php_file
    rw [if_pos hc]
  have g2 : ∀ c : List Char, sentinel <:+: c →
      enhance_config_file header c = c := by
    intro c hc
    unfold enhance_config_file
    rw [if_pos hc]
  have e1 : parse_template 1 (php_template header) = none →
      enhance_php_file header content = content := by
    intro hp
    unfold enhance_php_file
    rw [hp]
    split <;> rfl
  have e2 : parse_template 0 header = none →
      enhance_config_file header content = content := by
    intro hp
    unfold enhance_config_file
    rw [hp]
    split <;> rfl
  have m1 : '\\' ∉ header → sentinel <:+: header →
      hasPhpOpen true content = true →
      sentinel <:+: enhance_php_file header content := by
    intro hnb hh hm
    by_cases hs : sentinel <:+: content
    · rw [g1 content hs]
      exact hs
    · unfold enhance_php_file
      rw [if_neg hs, php_template_parse header hnb]
      exact subT_contains _ (fun g => sentinel_in_php_expand header g hh)
        content.length true content le_rfl hm
  have m2 : '\\' ∉ header → sentinel <:+: header →
      hasPhpOpen true content = true →
      sentinel <:+: enhance_config_file header content := by
    intro hnb hh hm
    by_cases hs : sentinel <:+: content
    · rw [g2 content hs]
      exact hs
    · unfold enhance_config_file
      rw [if_neg hs, parse_template_nb 0 header hnb]
      refine subT_contains _ (fun g => ?_) content.length true content le_rfl hm
      rw [expand_map_lit]
      exact hh
  have n1 : hasPhpOpen true content = false →
      enhance_php_file header content = content := by
    intro hm
    by_cases hs : sentinel <:+: content
    · exact g1 content hs
    · unfold enhance_php_file
      rw [if_neg hs]
      cases hp : parse_template 1 (php_template header) with
      | none => rfl
      | some pieces =>
        exact subT_no_match pieces content.length true content le_rfl hm
  have n2 : hasPhpOpen true content = false →
      enhance_config_file header content = content := by
    intro hm
    by_cases hs : sentinel <:+: content
    · exact g2 content hs
    · unfold enhance_config_file
      rw [if_neg hs]
      cases hp : parse_template 0 header with
      | none => rfl
      | some pieces =>
        exact subT_no_match pieces content.length true content le_rfl hm
  refine ⟨fun hs => ⟨g1 content hs, g2 content hs⟩, e1, e2,
    fun hnb hh hm => ⟨m1 hnb hh hm, m2 hnb hh hm⟩,
    fun hm => ⟨n1 hm, n2 hm⟩, fun hnb hh => ⟨?_, ?_⟩⟩
  · cases hm : hasPhpOpen true content with
    | true => exact g1 _ (m1 hnb hh hm)
    | false => rw [n1 hm, n1 hm]
  · cases hm : hasPhpOpen true content with
    | true => exact g2 _ (m2 hnb hh hm)
    | false => rw [n2 hm, n2 hm]

set_option maxRecDepth 40000 in
/-- C8 witness: a backslash-free generated header and a fresh `<?php` file —
the sentinel appears in both enhancers' output. -/
theorem C8_enhance_idempotent_witness :
    sentinel <:+:
        enhance_php_file
          (generate_ai_header (str "d2") (str "l2") (str "c2") (str "n2")
            (str "dep2") (str "pat2") (str "cls2") (str "m2") (str "t2")
            (str "date2") (str "i2") (str "s2") (str "p2"))
          (str "<?php\nhi") ∧
      sentinel <:+:
        enhance_config_file
          (generate_ai_header (str "d2") (str "l2") (str "c2") (str "n2")
            (str "dep2") (str "pat2") (str "cls2") (str "m2") (str "t2")
            (str "date2") (str "i2") (str "s2") (str "p2"))
          (str "<?php\nhi") :=
  ((C8_enhance_idempotent
      (generate_ai_header (str "d2") (str "l2") (str "c2") (str "n2")
        (str "dep2") (str "pat2") (str "cls2") (str "m2") (str "t2")
        (str "date2") (str "i2") (str "s2") (str "p2"))
      (str "<?php\nhi")).2.2.2.1) (by decide)
    (sentinel_in_ai_header (str "d2") (str "l2") (str "c2") (str "n2")
      (str "dep2") (str "pat2") (str "cls2") (str "m2") (str "t2")
      (str "date2") (str "i2") (str "s2") (str "p2"))
    (by decide)

end Enh
